import Mathlib

/-!
Verification development for the render-app front end.

The development shallowly embeds the application logic of
`src/services/geminiService.ts` and `src/App.tsx` (the variant the line
references of the claims point at, i.e. the final one; the repository also
carries superseded near-duplicates of the same functions).

Modelling conventions:
* Remote `ai.models.generateContent` calls are oracles: each model function
  takes the outcome of its network call as an `Except ErrVal _` argument and
  computes the value the TypeScript function would return (or the error it
  would throw, as the `Except.error` branch).
* JavaScript thrown values are modelled by `ErrVal` (an optional `message`
  string and an optional nested `error` object carrying `code`/`message`).
* Progress callbacks and outbound calls are modelled as an event trace
  (`TraceEv`) returned alongside the result.
* JSON text transport (`JSON.stringify`/`JSON.parse`) is modelled as the
  identity on a JSON value tree (`Json`), which is what the browser pair
  guarantees for the plain data involved; the load handler is modelled on the
  parsed value.
* Apostrophes and double quotes inside the TypeScript string literals are
  written with the `\x27` and `\"` escapes; backticks with `\x60`.
-/

set_option maxRecDepth 16384

namespace RenderApp

/-- JavaScript `String.trim`: strip leading and trailing whitespace.
(Defined over the character list so that it evaluates by structural
recursion.) -/
def jsTrim (s : String) : String :=
  ⟨((s.data.dropWhile Char.isWhitespace).reverse.dropWhile Char.isWhitespace).reverse⟩

/-- Substring containment, the semantics of JavaScript `String.includes`:
the needle occurs contiguously inside the haystack. -/
def Occurs (needle hay : String) : Prop := needle.data <:+: hay.data

instance (n h : String) : Decidable (Occurs n h) := List.decidableInfix _ _

/-- Executable `String.includes`. -/
def jsIncludes (hay needle : String) : Bool := decide (Occurs needle hay)

/-- A JavaScript thrown value, as inspected by the catch handlers:
`message` is the optional `.message` string, `errorField` the optional
nested `.error` object with its `code` and `message`. -/
structure ErrVal where
  message : Option String := none
  errorField : Option (Int × String) := none
deriving DecidableEq

/-- `e.message && e.message.includes(sub)` (an empty message is falsy). -/
def jsMsgIncludes (e : ErrVal) (sub : String) : Bool :=
  match e.message with
  | some m => if m = "" then false else jsIncludes m sub
  | none => false

/-- `e.message || dflt` (an empty or absent message yields the default). -/
def jsMsgOr (e : ErrVal) (dflt : String) : String :=
  match e.message with
  | some m => if m = "" then dflt else m
  | none => dflt

/-- Template interpolation of `e.message`. -/
def jsMsgTemplate (e : ErrVal) : String :=
  match e.message with
  | some m => m
  | none => "undefined"

/-- `s || dflt` on an optional string (empty or absent yields the default). -/
def jsStrOr (o : Option String) (dflt : String) : String :=
  match o with
  | some s => if s = "" then dflt else s
  | none => dflt

/-- The entitlement-error marker substring tested by every catch handler. -/
def requestedEntityNotFound : String := "Requested entity was not found."

/-- The invalid-key message the inner handlers re-throw. -/
def invalidApiKeyMessage : String :=
  "Invalid API Key. Please select a valid API key from a paid GCP project."

/-- An uploaded browser `File`; files are compared by identity in the app,
so a file is modelled as an opaque token. -/
structure FileV where
  tag : Nat
deriving DecidableEq

/-! ### The remote response shape (geminiService.ts) -/

/-- `inlineData` of a response part. -/
structure InlineData where
  mimeType : String
  data : String
deriving DecidableEq

/-- A response content part: optionally inline binary data, optionally text. -/
structure Part where
  inlineData : Option InlineData := none
  text : Option String := none
deriving DecidableEq

/-- `content` of a candidate. -/
structure Content where
  parts : Option (List Part) := none
deriving DecidableEq

/-- A response candidate. -/
structure Candidate where
  content : Option Content := none
deriving DecidableEq

/-- A `GenerateContentResponse` as far as `handleApiResponse` inspects it. -/
structure GenResponse where
  candidates : Option (List Candidate) := none
deriving DecidableEq

/-- The optional-chain `response.candidates?.[0]?.content?.parts`. -/
def partsOf (response : GenResponse) : Option (List Part) :=
  response.candidates.bind fun cs =>
    cs.head?.bind fun c => c.content.bind fun ct => ct.parts

/-- `parts.find(part => part.inlineData !== undefined)`. -/
def firstInlinePart (ps : List Part) : Option Part :=
  ps.find? fun p => p.inlineData.isSome

/-- `parts.find(part => typeof part.text === 'string')`. -/
def firstTextPart (ps : List Part) : Option Part :=
  ps.find? fun p => p.text.isSome

/-- The no-image error message of `handleApiResponse` (geminiService.ts:299),
including the model-provided text when it is truthy. -/
def noImageMessage (textOutput : Option String) : String :=
  "No se encontró imagen en la respuesta de la API. " ++
    (match textOutput with
     | some t => if t = "" then "" else "Mensaje del modelo: \"" ++ t ++ "\""
     | none => "") ++
    " Por favor, revisa el prompt y la imagen de entrada."

/-- `handleApiResponse` (geminiService.ts:281-301): extract the first
inline-data part as a data URL, else fail with `noImageMessage` built from
the first text part. Throwing is modelled as `Except.error`. -/
def handleApiResponse (response : GenResponse) (prompt : String) :
    Except String String :=
  match (partsOf response).bind firstInlinePart with
  | some part =>
    match part.inlineData with
    | some d => .ok ("data:" ++ d.mimeType ++ ";base64," ++ d.data)
    | none =>
      .error (noImageMessage (((partsOf response).bind firstTextPart).bind Part.text))
  | none =>
    .error (noImageMessage (((partsOf response).bind firstTextPart).bind Part.text))

/-! ### Events -/

/-- Observable effects of a service call: progress callbacks, client
construction, and the outbound remote calls with their payloads. -/
inductive TraceEv where
  | progress (msg : String)
  | clientInit
  | refineCall (prompt : String)
  | renderCall (image : FileV) (prompt : String) (refs : List FileV)
  | detectCall (images : List FileV)
deriving DecidableEq

/-- The progress messages of a trace, in emission order. -/
def progressMessages (evs : List TraceEv) : List String :=
  evs.filterMap fun ev =>
    match ev with
    | .progress m => some m
    | _ => none

/-! ### detectSceneElements (geminiService.ts:310-366) -/

/-- `detectSceneElements`: early return on an empty input list, otherwise the
trimmed-or-default model text, with the catch handler's error rewriting.
The network outcome (`response.text`) is the oracle `net`. -/
def detectSceneElementsRun (originalImages : List FileV)
    (net : Except ErrVal (Option String)) :
    Except ErrVal String × List TraceEv :=
  if originalImages.length = 0 then
    (.ok "No images provided for scene detection.", [])
  else
    let evs := [TraceEv.clientInit, TraceEv.detectCall originalImages]
    match net with
    | .ok text =>
      match text.map jsTrim with
      | some t =>
        if t = "" then
          (.ok "No se pudieron detectar elementos comunes de las escenas. Por favor, revisa las imágenes.", evs)
        else (.ok t, evs)
      | none =>
        (.ok "No se pudieron detectar elementos comunes de las escenas. Por favor, revisa las imágenes.", evs)
    | .error e =>
      if jsMsgIncludes e requestedEntityNotFound then
        (.error ⟨some invalidApiKeyMessage, none⟩, evs)
      else
        (.error ⟨some ("Error al detectar elementos de la escena: " ++ jsMsgOr e "Error desconocido"), none⟩, evs)

/-! ### refinePromptForGeneration, result part (geminiService.ts:469-482) -/

/-- The value `refinePromptForGeneration` resolves or rejects with, given the
outcome of its `generateContent` call (`response.text` as the `ok` payload). -/
def refinePromptForGenerationResult (net : Except ErrVal (Option String)) :
    Except ErrVal String :=
  match net with
  | .ok text => .ok (jsStrOr (text.map jsTrim) "No se pudo refinar el prompt.")
  | .error e =>
    if jsMsgIncludes e requestedEntityNotFound then
      .error ⟨some invalidApiKeyMessage, none⟩
    else
      .error ⟨some ("Error al refinar el prompt: " ++ jsMsgOr e "Error desconocido"), none⟩

/-! ### generateEventRender (geminiService.ts:493-525) -/

/-- The value `generateEventRender` resolves or rejects with, given the
outcome of its `generateContent` call: on a response, `handleApiResponse`
extracts the data URL (its throw is caught by the same catch); thrown errors
carrying the entitlement marker are replaced, others are re-thrown. -/
def generateEventRenderResult (finalPrompt : String)
    (net : Except ErrVal GenResponse) : Except ErrVal String :=
  match net with
  | .ok response =>
    match handleApiResponse response finalPrompt with
    | .ok imageUrl => .ok imageUrl
    | .error msg =>
      if jsMsgIncludes ⟨some msg, none⟩ requestedEntityNotFound then
        .error ⟨some invalidApiKeyMessage, none⟩
      else
        .error ⟨some msg, none⟩
  | .error e =>
    if jsMsgIncludes e requestedEntityNotFound then
      .error ⟨some invalidApiKeyMessage, none⟩
    else
      .error e

/-! ### Lighting enumerations (types.ts and the literal union types) -/

/-- `LightingType` (types.ts:7-11). -/
inductive LightingType where
  | day
  | sunset
  | night
deriving DecidableEq

/-- The `colorTemperature` literal union. -/
inductive ColorTemperature where
  | warm
  | neutral
  | cool
  | golden
deriving DecidableEq

/-- The `exposureCompensation` literal union. -/
inductive ExposureCompensation where
  | standard
  | brighter
  | darker
  | very_bright
  | very_dark
deriving DecidableEq

/-- The `contrastEnhancement` literal union. -/
inductive ContrastEnhancement where
  | natural
  | enhanced
  | soft
  | high_contrast
  | low_contrast
deriving DecidableEq

/-! ### refinePromptForGeneration, prompt construction (geminiService.ts:390-467) -/

/-- The `lightingDetails` lookup (geminiService.ts:391-402). -/
def lightingDetails : LightingType → String
  | .day => "Iluminación: Luz diurna brillante y suave, natural. Atmósfera aireada con exposición uniforme, sombras naturales realistas y sutiles. Sin focos duros ni efectos de lente fotográficos artificiales (por ejemplo, destellos, brillos o halos exagerados)."
  | .sunset => "Iluminación: Luz cálida y dorada de atardecer. Ambiente mágico y etéreo con sombras alargadas y colores ricos. La luz debe ser suave y direccional, sin destellos o halos artificiales que no sean físicamente realistas de la hora dorada."
  | .night => "Iluminación: Ambiente nocturno íntimo. Fuentes de luz primaria como velas o luces de cadena con un brillo cálido, suave y difuso, realistas. La luz ambiental debe ser dorada o tenue, sin efectos de lente fotográficos exagerados (por ejemplo, destellos, brillos o halos artificiales). Las llamas de las velas deben emitir un brillo suave y realista sin destellos de lente exagerados. El fondo debe estar sutilmente atenuado para enfatizar las mesas y el primer plano."

/-- The `colorTemperature` clause lookup (geminiService.ts:406-411),
trailing space included. -/
def colorTemperatureClause : ColorTemperature → String
  | .warm => "La temperatura de color general es cálida, con tonos dorados y ámbar dominantes, evocando confort. "
  | .neutral => "La temperatura de color es neutra y equilibrada, sin dominancia de tonos cálidos o fríos. "
  | .cool => "La temperatura de color general es fría, con tonos azules y cian dominantes, evocando una sensación de frescura. "
  | .golden => "La temperatura de color general es dorada y muy cálida, como la luz del sol al atardecer, creando un brillo etéreo. "

/-- The `exposureCompensation` clause lookup (geminiService.ts:412-418). -/
def exposureCompensationClause : ExposureCompensation → String
  | .standard => "La exposición es estándar y bien equilibrada. "
  | .brighter => "La imagen tiene una exposición ligeramente más brillante, con un ambiente más luminoso. "
  | .darker => "La imagen tiene una exposición ligeramente más oscura, con un un ambiente más dramático o íntimo. "
  | .very_bright => "La imagen tiene una exposición muy brillante, con zonas luminosas que pueden tener un ligero bloom. "
  | .very_dark => "La imagen tiene una exposición muy oscura, con sombras profundas y un ambiente misterioso. "

/-- The `contrastEnhancement` clause lookup (geminiService.ts:419-425). -/
def contrastEnhancementClause : ContrastEnhancement → String
  | .natural => "El contraste es natural y realista. "
  | .enhanced => "El contraste está ligeramente mejorado para mayor viveza y separación tonal. "
  | .soft => "El contraste es suave y delicado, para una atmósfera etérea. "
  | .high_contrast => "El contraste es alto y dramático, con negros profundos y blancos brillantes. "
  | .low_contrast => "El contraste es bajo, con una apariencia más plana y desaturada, pero elegante. "

/-- `advancedLightingCommand` (geminiService.ts:405-430): the three clause
lookups concatenated, followed by the free-text instructions when truthy. -/
def advancedLightingCommand (colorTemperature : ColorTemperature)
    (exposureCompensation : ExposureCompensation)
    (contrastEnhancement : ContrastEnhancement)
    (advancedLightingInstructions : String) : String :=
  colorTemperatureClause colorTemperature ++
  exposureCompensationClause exposureCompensation ++
  contrastEnhancementClause contrastEnhancement ++
  (if advancedLightingInstructions = "" then ""
   else "Instrucciones de iluminación muy específicas: " ++ advancedLightingInstructions)

/-- `referenceImageInstruction` (geminiService.ts:433-435). -/
def referenceImageInstruction (hasReferenceImages : Bool) : String :=
  if hasReferenceImages then
    "**DIRECTIVA CRÍTICA: REFERENCIAS VISUALES ANULAN TEXTO EN CONFLICTO** Si se proporcionan imágenes de referencia visuales específicas para elementos (ej. cubiertos, flores, servilletas) junto con este prompt, la IA **DEBE priorizar y replicar los detalles visuales, patrones y texturas EXACTOS de esas imágenes de referencia** sobre cualquier descripción textual conflictiva. Las descripciones textuales sirven como contexto suplementario, pero las referencias visuales son de importancia suprema para la fidelidad."
  else ""

/-- The template text of `refinementPrompt` preceding the
`referenceImageInstruction` interpolation (geminiService.ts:438-442). -/
def refinementTemplateA : String :=
  "Basado en las siguientes entradas de usuario, genera un prompt maestro extremadamente detallado y preciso para un modelo de generación de imágenes de IA (como Gemini 3 Pro Image). El objetivo es producir una Fotografía de Evento Hiper-Fotorrealista y Galardonada a partir de una imagen de entrada tipo SketchUp, adecuada para un portafolio de diseño de alta gama.\n\n  **Instrucciones para el Prompt Maestro:**\n  - **Comienza con la Directiva Central:** \"Eres una IA experta especializada en Diseño de Eventos de Lujo y Visualización de Bodas. Tu tarea es transformar una captura de pantalla de un modelo 3D en bruto (SketchUp) en una Fotografía de Evento Hiper-Fotorrealista y Galardonada, adecuada para un portafolio de diseño de alta gama.\"\n  - "

/-- The template text between the `referenceImageInstruction` and the
`lightingDetails` interpolations (geminiService.ts:442-457). -/
def refinementTemplateB : String :=
  "\n  - **DIRECTIVA ULTRA-CRÍTICA DE FIDELIDAD 1:1 ABSOLUTA (NO HAY MARGEN PARA ERRORES O INTERPRETACIONES CREATIVAS):**\n    \"1. **LA CÁMARA ES SACROSANTA. ENCUADRE, ÁNGULO Y PERSPECTIVA 1:1 SON INMUTABLES.** El render DEBE ser un **CALCO FOTOGRÁFICO EXACTO DEL ENCUADRE, ÁNGULO Y PERSPECTIVA DE LA IMAGEN DE SKETCHUP**. CUALQUIER ALTERACIÓN DE LA CÁMARA ES UN FALLO CRÍTICO. No hay movimiento de cámara, ajuste de lente, cambio de punto de vista ni recomposición. La imagen de SketchUp es el visor literal del render final.\n    2. **LA GEOMETRÍA ES INALTERABLE. COMPOSICIÓN Y POSICIÓN SON FIJAS:** La disposición exacta, posición, escala y número de TODOS los objetos (mesas, sillas, platos, vasos, flores, elementos arquitectónicos, *incluyendo suelo, paredes, y la presencia/ausencia de CUALQUIER objeto*) deben permanecer **PRECISAMENTE** en sus coordenadas de píxeles y dimensiones originales tal como se representa en la imagen de entrada de SketchUp. Esta imagen es un plano 3D rígido e inalterable; **ES ABSOLUTAMENTE IMPERATIVO QUE NO HAYA LA MÁS MÍNIMA DESVIACIÓN EN LA GEOMETRÍA O EN LA DISTRIBUCIÓN DE LOS OBJETOS. LA IA NO TIENE ABSOLUTAMENTE NINGÚN PERMISO PARA INTRODUCIR NUEVOS ELEMENTOS, ELIMINAR OBJETOS EXISTENTES, REDISTRIBUIR OBJETOS, NI ALTERAR LA COMPOSICIÓN ORIGINAL EN LO ABSOLUTO.**\n    3. **¡ALERTA CRÍTICA: NO INVENTES OBJETOS!** Si un objeto NO está en la imagen de SketchUp O la descripción lo declara AUSENTE (ej. \x27Mesas adicionales: Ausentes.\x27, \x27NO hay mesas en primer plano\x27), **BAJO NINGUNA CIRCUNSTANCIA DEBES GENERARLO**. Tu única función es realzar lo existente con fotorrealismo, NO crear nuevos elementos para \x27llenar\x27 vacíos percibidos.\n    4. **ESPACIOS VACÍOS PERMANECEN VACÍOS (CON FIDELIDAD MATERIAL):** Si la imagen de entrada muestra áreas vacías, sin textura, o con un objeto básico (ej. un cuadrado para una servilleta), estas áreas DEBEN permanecer como tales. NO añadas nuevas paredes, techos, muebles o cualquier elemento arquitectónico no presente explícitamente en la imagen de SketchUp, y **NUNCA inventes objetos o mobiliario para llenar estos espacios, incluso si parecen \x27vacíos\x27.** Trata las superficies sin textura como fondos simples, limpios y consistentemente de tono neutro si lo sugiere el contexto (ej. \x27pared lisa con micro-textura de yeso blanco sin patrón\x27), pero NUNCA inventes patrones o estructuras complejas.\n    5. **SÓLO SUPERPOSICIÓN DE TEXTURA FOTORREALISTA (FIDELIDAD 1:1 DE OBJETO Y FORMA):** Tu ÚNICA función es \x27pintar\x27 sobre la geometría existente con texturas y materiales increíblemente realistas, de alta definición, renderizados físicamente (PBR). NO alteres las formas subyacentes, solo sus propiedades de superficie y la interacción con la luz. SI LA IMAGEN DE SKETCHUP ES UN \x27MODELO DE CAJA BLANCA\x27 O UN \x27LAYOUT BÁSICO\x27 CON ESPACIOS VACÍOS, ASEGÚRATE DE QUE LA IMAGEN FINAL REFLEJE UN ESPACIO ABIERTO, O LAS PAREDES TAL CUAL, SIN AÑADIR NUEVAS PAREDES INNECESARIAS O RELLENAR VACÍOS CON ESTRUCTURAS. **Cada objeto, por pequeño que sea (platos, cubiertos, copas, servilletas, flores específicas), DEBE mantener la forma, tamaño, posición, color, patrón y doblado EXACTOS de la geometría original de SketchUp. Si una servilleta es cuadrada en SketchUp, DEBE ser cuadrada en el render y su doblado DEBE ser el mismo; si un plato tiene un borde específico, DEBE replicarlo. NO \x27MEJORES\x27 CREATIVAMENTE SU GEOMETRÍA. Solo haz que se vean fotorrealistas con la fidelidad más alta posible a su forma base, SIN INFERIR NADA QUE NO ESTÉ EN EL SKETCHUP.**\"\n  - **Protocolo Detallado de Traducción de Materiales (Basado en la Descripción de Elementos de la Escena y Referencias Visuales):**\n    - **Detalles del Contenido de la Escena:** Incorpora TODOS los detalles de la descripción de la escena a continuación. Esto incluye estilo general, colores dominantes, objetos específicos, sus recuentos, descripciones detalladas (ej. tipos y colores específicos de flores, estilos de sillas, tipos de tela, materiales de la vajilla, *con notas específicas sobre el grano de la madera, el tejido de la tela, los acabados metálicos*). La IA debe seguir estrictamente estas descripciones, **priorizando las referencias visuales si se proporcionan para cualquier elemento específico**.\n    - **Florales:** \"Renderízalos como diseños florales hiper-realistas, recién arreglados, exuberantes y orgánicos. Incorpora TODOS los detalles de flores proporcionados por el usuario (tipos, colores, arreglos, estilos de jarrones) de la descripción de la escena. Concéntrate en detalles de pétalos individuales, naturalmente imperfectos, texturas variadas, volumen realista, variaciones orgánicas y translucidez de luz realista. Asegura que el color sea exactamente el especificado. **SI SE ESPECIFICAN ROSAS U OTRAS FLORES SOBRE UN ARREGLO, DEBEN ESTAR PRESENTES Y EN LA POSICIÓN EXACTA, REPLICANDO LA DISPOSICIÓN DEL SKETCHUP. Si se proporcionan referencias visuales para flores/jarrones, replícalas con precisión, incluyendo propiedades de material y forma.**\"\n    - **Telas:** \"Transforma superficies de colores planos en textiles lujosos de alta gama. Incorpora TODOS los detalles de tela proporcionados por el usuario de la descripción de la escena. Renderiza con **cualidades de renderizado físicamente basado (PBR) hiper-realistas**: exhibiendo pliegues de tela naturales, suaves y voluminosos y peso natural, brillo sutil y detalles intrincados del tejido (ej. seda fina, terciopelo pesado, lino nítido, brocado texturizado). Asegura que la luz interactúe de forma realista con la siesta y la textura de la tela, mostrando sutiles variaciones de color y brillo. **Si se proporcionan referencias visuales para telas, replícalas con precisión, incluyendo la caída y la textura.**\"\n    - **Vajilla (Vasos, Cubiertos, Platos, Servilletas):** \"Convierte formas geométricas en vajilla exquisita. Incorpora TODOS los detalles de vajilla y servilletas proporcionados por el usuario de la descripción de la escena. Esto incluye **cubiertos de metal dorado ALTAMENTE PULIDO, BRILLANTE Y ALTAMENTE REFLECTANTE (con un lustre vívido, un efecto espejo casi perfecto, un brillo casi especular que refleja el entorno con máxima fidelidad y sutiles iridiscencias), con micro-rasguños sutiles y distribución de peso realista)**; **platos de porcelana fina (esmaltes delicados, bordes nítidos, imperfecciones sutiles, micro-textura de superficie realista y cualquier patrón o detalle de borde especificado). LA VAJILLA Y SERVILLETAS DEBEN REPLICAR FIELMENTE LAS FORMAS, TAMAÑOS, PATRONES, COLORES Y DOBLADOS EXACTOS MOSTRADOS EN EL SKETCHUP O EN LAS REFERENCIAS. ABSOLUTAMENTE NINGUNA ALTERACIÓN, MODIFICACIÓN O \x27MEJORAMIENTO\x27 CREATIVO DE SU GEOMETRÍA O DISPOSICIÓN, incluso si el modelo de SketchUp es rudimentario; tu tarea es añadir fotorrealismo A SU GEOMETRÍA EXISTENTE Y EXACTA SIN INFERENCIAS**.\"; y **cristalería brillante e impecable (exhibiendo refracciones ópticas realistas, aberración cromática y alta transparencia, reflejando la luz ambiental con reflejos precisos pero SIN destellos de lente exagerados, deslumbramiento o floración de fuentes de luz internas)**. Cada pequeño detalle debe ser renderizado perfectamente. **Si se proporcionan referencias visuales para vajilla/servilletas, replícalas con precisión, incluyendo propiedades de material, patrones y formas.**\"\n    - **Sillas:** \"Aplica texturas fotorrealistas. Incorpora TODOS los detalles de sillas proporcionados por el usuario de la descripción de la escena. Ejemplos incluyen sillas Chivari doradas ricamente texturizadas con brillo metálico realista, reflejos precisos y desgaste sutil; sillas Crossback de madera rústicas con grano de madera visible y variado (ej. roble, caoba, pino envejecido), imperfecciones naturales y acabados de superficie realistas (ej. mate, satinado); o sillas Ghost de acrílico perfectamente claras con alta transparencia, interacción de luz realista (refracción y reflexión) y reflejos sutiles en los bordes. **Si se proporcionan referencias visuales para sillas, replícalas con precisión.**\"\n  - **Guía de Atmósfera y Estilo:**\n    - **Inferencia General de Estilo y Material:** La descripción de la escena es CRÍTICA para especificar elecciones exactas de materiales, tipos y colores de flores específicos y elementos decorativos matizados, así como el estilo general del evento. La IA priorizará estos detalles textuales para la precisión del renderizado, *mientras se adhiere rigurosamente a la geometría original, las indicaciones de color y el diseño de la imagen de SketchUp*, **y dando importancia primordial a cualquier referencia visual proporcionada para elementos específicos**.\"\n    - **Entorno de Iluminación (Físicamente Preciso):** \""

/-- The template text between the `advancedLightingCommand` and the
`sceneElementsDescription` interpolations (geminiService.ts:457-463). -/
def refinementTemplateC : String :=
  "\"\n  - **Calidad:** \"Genera una imagen con fotorrealismo inigualable y detalle sub-píxel, renderizada en resolución 8K. Utiliza interacción de luz físicamente precisa, profundidad de campo precisa (creando un efecto bokeh natural para los elementos de fondo) y enfoque nítido en el primer plano inmediato y los sujetos principales. Asegura una caída de luz natural y sombras realistas sin artefactos de lente artificiales (sin destellos, deslumbramiento o floración artificial a menos que sea un subproducto sutil y físicamente preciso de las condiciones de iluminación).\"\n  - **Directiva de Salida:** \"Output: Return ONLY the final rendered image.\"\n\n  **Descripción de Elementos de la Escena (ESTA ES LA FUENTE PRIMARIA E INALTERABLE DE TODOS LOS DETALLES DE CONTENIDO Y GEOMETRÍA PARA ESTA ESCENA):**\n  \x60\x60\x60\n  "

/-- The template text between the `sceneElementsDescription` and the
global-note interpolations (geminiService.ts:463-465). -/
def refinementTemplateD : String := "\n  \x60\x60\x60\n  "

/-- The global-reference note of the final ternary (geminiService.ts:465). -/
def refinementGlobalNote : String :=
  "- Nota: También se proporcionan referencias visuales globales para elementos específicos junto a CADA imagen principal de SketchUp. Prioriza estas señales visuales para esos elementos en todas las generaciones."

/-- The closing template text (geminiService.ts:465-467). -/
def refinementTemplateE : String :=
  "\n\n  Genera el prompt maestro completo y refinado ahora:"

/-- The assembled `refinementPrompt` template literal
(geminiService.ts:438-467). -/
def refinementPrompt (sceneElementsDescription : String)
    (lightingType : LightingType) (advancedLightingInstructions : String)
    (colorTemperature : ColorTemperature)
    (exposureCompensation : ExposureCompensation)
    (contrastEnhancement : ContrastEnhancement)
    (hasReferenceImages : Bool) : String :=
  refinementTemplateA ++ referenceImageInstruction hasReferenceImages ++
  refinementTemplateB ++ lightingDetails lightingType ++ " " ++
  advancedLightingCommand colorTemperature exposureCompensation
    contrastEnhancement advancedLightingInstructions ++
  refinementTemplateC ++ sceneElementsDescription ++ refinementTemplateD ++
  (if hasReferenceImages then refinementGlobalNote else "") ++
  refinementTemplateE

/-! ### generateSingleRender (geminiService.ts:540-596) -/

/-- `RenderResult`: the `{ url, error }` value the orchestrator returns. -/
structure RenderResult where
  url : Option String
  error : Option String
deriving DecidableEq

/-- The HTTP-500 remediation message (geminiService.ts:584-587). -/
def internalServerErrorMessage : String :=
  "Error interno del servidor (500) al generar la imagen. Esto puede ser un problema temporal del servicio o que la combinación de entradas (imágenes y prompt) sea demasiado compleja para el modelo. Por favor, intenta:\n      1. Reducir la complejidad de la descripción de la escena.\n      2. Usar menos imágenes de referencia o de menor resolución.\n      3. Reintentar la generación en unos minutos."

/-- The error classification of the orchestrator's catch handler
(geminiService.ts:578-590). -/
def generateErrorMessage (error : ErrVal) : String :=
  if jsMsgIncludes error requestedEntityNotFound then
    jsMsgTemplate error ++
      " Un enlace a la documentación de facturación se puede encontrar en ai.google.dev/gemini-api/docs/billing."
  else if (match error.errorField with
           | some f => f.1 == 500 && f.2 == "Internal error encountered."
           | none => false) then
    internalServerErrorMessage
  else
    "Error al generar la escena: " ++ jsMsgOr error "Error desconocido" ++ "."

/-- `generateSingleRender` (geminiService.ts:540-596): emits the refinement
progress message, short-circuits on a whitespace-only description, runs the
refine then the render step, and folds every failure into the result value.
`refineNet` and `renderNet` are the oracles for the two remote calls. -/
def generateSingleRenderRun (sketchupImage : FileV) (sceneDescription : String)
    (referenceImages : List FileV) (lightingType : LightingType)
    (advancedLightingInstructions : String)
    (colorTemperature : ColorTemperature)
    (exposureCompensation : ExposureCompensation)
    (contrastEnhancement : ContrastEnhancement)
    (refineNet : Except ErrVal (Option String))
    (renderNet : Except ErrVal GenResponse) :
    RenderResult × List TraceEv :=
  let progress0 := TraceEv.progress "Refinando prompt para la escena..."
  if jsTrim sceneDescription = "" then
    let errorMessage := "Error: Descripción de la escena faltante."
    (⟨none, some errorMessage⟩, [progress0, TraceEv.progress errorMessage])
  else
    let sentPrompt := refinementPrompt sceneDescription lightingType
      advancedLightingInstructions colorTemperature exposureCompensation
      contrastEnhancement (decide (0 < referenceImages.length))
    match refinePromptForGenerationResult refineNet with
    | .error e =>
      let errorMessage := generateErrorMessage e
      (⟨none, some errorMessage⟩,
       [progress0, TraceEv.refineCall sentPrompt,
        TraceEv.progress ("Error al generar la escena: " ++ errorMessage)])
    | .ok finalPrompt =>
      match generateEventRenderResult finalPrompt renderNet with
      | .ok imageUrl =>
        (⟨some imageUrl, none⟩,
         [progress0, TraceEv.refineCall sentPrompt,
          TraceEv.progress "Generando render para la escena...",
          TraceEv.renderCall sketchupImage finalPrompt referenceImages])
      | .error e =>
        let errorMessage := generateErrorMessage e
        (⟨none, some errorMessage⟩,
         [progress0, TraceEv.refineCall sentPrompt,
          TraceEv.progress "Generando render para la escena...",
          TraceEv.renderCall sketchupImage finalPrompt referenceImages,
          TraceEv.progress ("Error al generar la escena: " ++ errorMessage)])

/-! ### JSON values and the lighting configuration (App.tsx) -/

/-- A parsed JSON value, the shape `JSON.parse` delivers to the load
handler. -/
inductive Json where
  | null
  | bool (b : Bool)
  | num (n : Int)
  | str (s : String)
  | arr (elems : List Json)
  | obj (fields : List (String × Json))

/-- JavaScript truthiness of a parsed JSON value. -/
def Json.truthy : Json → Bool
  | .null => false
  | .bool b => b
  | .num n => n != 0
  | .str s => !(s == "")
  | .arr _ => true
  | .obj _ => true

/-- Property access on a parsed JSON value; a missing key or a non-object
receiver yields `none` (JavaScript `undefined`). Duplicate keys keep the
last occurrence, as `JSON.parse` does. -/
def Json.getField : Json → String → Option Json
  | .obj fields, key => ((fields.filter fun kv => kv.1 == key).getLast?).map (·.2)
  | _, _ => none

/-- `LightingConfig` (types.ts:21-27). -/
structure LightingConfig where
  lightingType : LightingType
  advancedLightingInstructions : String
  colorTemperature : ColorTemperature
  exposureCompensation : ExposureCompensation
  contrastEnhancement : ContrastEnhancement
deriving DecidableEq

/-- The string value of a `LightingType` (types.ts:7-11). -/
def LightingType.toJsonString : LightingType → String
  | .day => "day"
  | .sunset => "sunset"
  | .night => "night"

/-- The string value of a `colorTemperature` literal. -/
def ColorTemperature.toJsonString : ColorTemperature → String
  | .warm => "warm"
  | .neutral => "neutral"
  | .cool => "cool"
  | .golden => "golden"

/-- The string value of an `exposureCompensation` literal. -/
def ExposureCompensation.toJsonString : ExposureCompensation → String
  | .standard => "standard"
  | .brighter => "brighter"
  | .darker => "darker"
  | .very_bright => "very_bright"
  | .very_dark => "very_dark"

/-- The string value of a `contrastEnhancement` literal. -/
def ContrastEnhancement.toJsonString : ContrastEnhancement → String
  | .natural => "natural"
  | .enhanced => "enhanced"
  | .soft => "soft"
  | .high_contrast => "high_contrast"
  | .low_contrast => "low_contrast"

/-- `handleSaveLightingConfig` (App.tsx:254-272): the JSON value of the
serialized configuration object, fields in the source's order. The
`JSON.stringify`/`JSON.parse` text transport is the identity on this value. -/
def handleSaveLightingConfigJson (c : LightingConfig) : Json :=
  .obj [("lightingType", .str c.lightingType.toJsonString),
        ("advancedLightingInstructions", .str c.advancedLightingInstructions),
        ("colorTemperature", .str c.colorTemperature.toJsonString),
        ("exposureCompensation", .str c.exposureCompensation.toJsonString),
        ("contrastEnhancement", .str c.contrastEnhancement.toJsonString)]

/-- The five in-memory lighting-selection values as the runtime holds them
after a load (the raw parsed values). -/
structure JsonLightingSelection where
  lightingType : Json
  advancedLightingInstructions : Json
  colorTemperature : Json
  exposureCompensation : Json
  contrastEnhancement : Json

/-- The lighting-selection state plus the UI error banner. -/
structure LightingUiState where
  selection : JsonLightingSelection
  error : Option String

/-- The message of the error thrown on an invalid configuration
(App.tsx:292). -/
def invalidConfigMessage : String :=
  "Formato de configuración de iluminación no válido o incompleto."

/-- The embedding of a valid `LightingConfig` into the runtime selection. -/
def jsonSelectionOfConfig (c : LightingConfig) : JsonLightingSelection :=
  ⟨.str c.lightingType.toJsonString, .str c.advancedLightingInstructions,
   .str c.colorTemperature.toJsonString, .str c.exposureCompensation.toJsonString,
   .str c.contrastEnhancement.toJsonString⟩

/-- `handleLoadLightingConfig` (App.tsx:274-303) applied to the parsed JSON
value: the guard requires `lightingType`, `colorTemperature`,
`exposureCompensation` and `contrastEnhancement` to be truthy and
`advancedLightingInstructions` to be defined; on success all five setters
run and the error is cleared, otherwise the thrown validation error is
caught and surfaced and the selection is left untouched. -/
def handleLoadLightingConfigModel (config : Json) (s : LightingUiState) :
    LightingUiState :=
  match config.getField "lightingType",
        config.getField "advancedLightingInstructions",
        config.getField "colorTemperature",
        config.getField "exposureCompensation",
        config.getField "contrastEnhancement" with
  | some lt, some adv, some ct, some ec, some ce =>
    if lt.truthy && ct.truthy && ec.truthy && ce.truthy then
      { selection := ⟨lt, adv, ct, ec, ce⟩, error := none }
    else
      { s with error := some ("Error al cargar la configuración de iluminación: " ++ invalidConfigMessage) }
  | _, _, _, _, _ =>
    { s with error := some ("Error al cargar la configuración de iluminación: " ++ invalidConfigMessage) }

/-! ### Reference images (App.tsx:18, 98-131) -/

/-- `MAX_REFERENCE_IMAGES` (App.tsx:18). -/
def MAX_REFERENCE_IMAGES : Nat := 5

/-- The reference-image list plus the UI error banner. -/
structure RefImagesState where
  referenceImages : List FileV
  error : Option String
deriving DecidableEq

/-- JavaScript `Array.prototype.slice(0, stop)`: a negative stop counts from
the end, a stop beyond the length is clamped. -/
def jsSliceTo (xs : List α) (stop : Int) : List α :=
  if stop < 0 then xs.take (max ((xs.length : Int) + stop) 0).toNat
  else xs.take (min stop ((xs.length : Int))).toNat

/-- The limit warning (App.tsx:115). -/
def limitWarning (added : Nat) : String :=
  "Solo se permiten un máximo de " ++ toString MAX_REFERENCE_IMAGES ++
    " imágenes de referencia. Se han añadido las primeras " ++ toString added ++ "."

/-- `handleReferenceImagesChange` (App.tsx:98-125): append the first
`MAX - current` selected files, then set the limit warning when the
selection overflows, else clear the error. -/
def handleReferenceImagesChangeModel (filesToProcess : List FileV)
    (s : RefImagesState) : RefImagesState :=
  let currentRefImagesCount := s.referenceImages.length
  let newImages := jsSliceTo filesToProcess
    ((MAX_REFERENCE_IMAGES : Int) - (currentRefImagesCount : Int))
  let s1 :=
    if 0 < newImages.length then
      { s with referenceImages := s.referenceImages ++ newImages }
    else s
  if MAX_REFERENCE_IMAGES < currentRefImagesCount + filesToProcess.length then
    { s1 with error := some (limitWarning newImages.length) }
  else
    { s1 with error := none }

/-- `handleRemoveReferenceImage` (App.tsx:127-131): drop the identical file
and clear the error. -/
def handleRemoveReferenceImageModel (fileToRemove : FileV)
    (s : RefImagesState) : RefImagesState :=
  { referenceImages := s.referenceImages.filter fun file => !(file == fileToRemove),
    error := none }

/-! ### Concrete inputs used by the witnesses -/

/-- A response part carrying only the text `blocked by policy`. -/
def blockedTextPart : Part := { inlineData := none, text := some "blocked by policy" }

/-- A response whose only content part is `blockedTextPart`. -/
def blockedResponse : GenResponse :=
  { candidates := some [{ content := some { parts := some [blockedTextPart] } }] }

/-- A response whose only content part carries inline image data. -/
def imageResponse : GenResponse :=
  { candidates :=
      some [⟨some ⟨some [⟨some ⟨"image/png", "QUFB"⟩, none⟩]⟩⟩] }

/-- A configuration object missing four of the five required fields. -/
def missingFieldsJson : Json := Json.obj [("lightingType", Json.str "day")]

/-- A lighting UI state holding the default selection. -/
def defaultLightingState : LightingUiState :=
  { selection := ⟨Json.str "day", Json.str "", Json.str "neutral",
      Json.str "standard", Json.str "natural"⟩,
    error := none }

/-- A reference-image state holding two images. -/
def twoRefImagesState : RefImagesState :=
  { referenceImages := [⟨1⟩, ⟨2⟩], error := none }

/-! ## Helper lemmas -/

theorem sdata_append (a b : String) : (a ++ b).data = a.data ++ b.data := rfl

theorem string_eq_of_data {a b : String} (h : a.data = b.data) : a = b := by
  cases a with
  | mk da =>
    cases b with
    | mk db =>
      cases h
      rfl

theorem sappend_assoc (a b c : String) : a ++ b ++ c = a ++ (b ++ c) := by
  apply string_eq_of_data
  simp only [sdata_append, List.append_assoc]

theorem string_eq_empty_iff {s : String} : s = "" ↔ s.data = [] := by
  constructor
  · intro h
    rw [h]
  · intro h
    exact string_eq_of_data h

theorem sappend_ne_empty_right (a b : String) (h : b ≠ "") : a ++ b ≠ "" := by
  intro he
  apply h
  have hd := string_eq_empty_iff.mp he
  rw [sdata_append] at hd
  exact string_eq_empty_iff.mpr (List.append_eq_nil.mp hd).2

theorem sappend_ne_empty_left (a b : String) (h : a ≠ "") : a ++ b ≠ "" := by
  intro he
  apply h
  have hd := string_eq_empty_iff.mp he
  rw [sdata_append] at hd
  exact string_eq_empty_iff.mpr (List.append_eq_nil.mp hd).1

theorem occurs_of_append {n h : String} (a b : String) (e : h = a ++ n ++ b) :
    Occurs n h := by
  subst e
  exact ⟨a.data, b.data, by rw [sdata_append, sdata_append]⟩

theorem occurs_empty (h : String) : Occurs "" h := List.nil_infix

/-! ## Claim theorems -/

/-- Claim C10: for the empty input list, `detectSceneElements` returns the
fixed string as a successful result, with no client construction and no
network call (an empty event trace), for every possible network outcome. -/
theorem detectSceneElements_empty_input :
    ∀ net : Except ErrVal (Option String),
      detectSceneElementsRun [] net =
        (.ok "No images provided for scene detection.", []) := fun _ => rfl

/-- Claim C7: every value of the four lighting enumerations maps to a
non-empty clause, and each chosen clause, as well as the scene description,
appears in the assembled refinement instruction block. -/
theorem refinement_clauses_nonempty_and_present :
    ∀ (desc adv : String) (lt : LightingType) (ct : ColorTemperature)
      (ec : ExposureCompensation) (ce : ContrastEnhancement) (hasRef : Bool),
      lightingDetails lt ≠ "" ∧
      colorTemperatureClause ct ≠ "" ∧
      exposureCompensationClause ec ≠ "" ∧
      contrastEnhancementClause ce ≠ "" ∧
      Occurs (lightingDetails lt) (refinementPrompt desc lt adv ct ec ce hasRef) ∧
      Occurs (colorTemperatureClause ct) (refinementPrompt desc lt adv ct ec ce hasRef) ∧
      Occurs (exposureCompensationClause ec) (refinementPrompt desc lt adv ct ec ce hasRef) ∧
      Occurs (contrastEnhancementClause ce) (refinementPrompt desc lt adv ct ec ce hasRef) ∧
      Occurs desc (refinementPrompt desc lt adv ct ec ce hasRef) := by
  intro desc adv lt ct ec ce hasRef
  refine ⟨?_, ?_, ?_, ?_, ?_, ?_, ?_, ?_, ?_⟩
  · cases lt <;> decide
  · cases ct <;> decide
  · cases ec <;> decide
  · cases ce <;> decide
  · exact occurs_of_append
      (refinementTemplateA ++ referenceImageInstruction hasRef ++ refinementTemplateB)
      (" " ++ advancedLightingCommand ct ec ce adv ++ refinementTemplateC ++ desc ++
        refinementTemplateD ++ (if hasRef then refinementGlobalNote else "") ++
        refinementTemplateE)
      (by simp only [refinementPrompt, sappend_assoc])
  · exact occurs_of_append
      (refinementTemplateA ++ referenceImageInstruction hasRef ++ refinementTemplateB ++
        lightingDetails lt ++ " ")
      (exposureCompensationClause ec ++ contrastEnhancementClause ce ++
        (if adv = "" then ""
         else "Instrucciones de iluminación muy específicas: " ++ adv) ++
        refinementTemplateC ++ desc ++ refinementTemplateD ++
        (if hasRef then refinementGlobalNote else "") ++ refinementTemplateE)
      (by simp only [refinementPrompt, advancedLightingCommand, sappend_assoc])
  · exact occurs_of_append
      (refinementTemplateA ++ referenceImageInstruction hasRef ++ refinementTemplateB ++
        lightingDetails lt ++ " " ++ colorTemperatureClause ct)
      (contrastEnhancementClause ce ++
        (if adv = "" then ""
         else "Instrucciones de iluminación muy específicas: " ++ adv) ++
        refinementTemplateC ++ desc ++ refinementTemplateD ++
        (if hasRef then refinementGlobalNote else "") ++ refinementTemplateE)
      (by simp only [refinementPrompt, advancedLightingCommand, sappend_assoc])
  · exact occurs_of_append
      (refinementTemplateA ++ referenceImageInstruction hasRef ++ refinementTemplateB ++
        lightingDetails lt ++ " " ++ colorTemperatureClause ct ++
        exposureCompensationClause ec)
      ((if adv = "" then ""
        else "Instrucciones de iluminación muy específicas: " ++ adv) ++
        refinementTemplateC ++ desc ++ refinementTemplateD ++
        (if hasRef then refinementGlobalNote else "") ++ refinementTemplateE)
      (by simp only [refinementPrompt, advancedLightingCommand, sappend_assoc])
  · exact occurs_of_append
      (refinementTemplateA ++ referenceImageInstruction hasRef ++ refinementTemplateB ++
        lightingDetails lt ++ " " ++ advancedLightingCommand ct ec ce adv ++
        refinementTemplateC)
      (refinementTemplateD ++ (if hasRef then refinementGlobalNote else "") ++
        refinementTemplateE)
      (by simp only [refinementPrompt, sappend_assoc])

/-- Claim C6: the render-response extraction is two-sided — a response whose
first candidate's parts contain an inline-data part yields exactly the data
URL built from the first such part, and a response without one fails with a
message that carries the text of the first text part when present. -/
theorem handleApiResponse_extraction :
    ∀ (response : GenResponse) (prompt : String) (ps : List Part),
      partsOf response = some ps →
      ((∀ p d, firstInlinePart ps = some p → p.inlineData = some d →
          handleApiResponse response prompt =
            .ok ("data:" ++ d.mimeType ++ ";base64," ++ d.data)) ∧
       (firstInlinePart ps = none →
          handleApiResponse response prompt =
            .error (noImageMessage ((firstTextPart ps).bind Part.text)) ∧
          ∀ p t, firstTextPart ps = some p → p.text = some t →
            Occurs t (noImageMessage ((firstTextPart ps).bind Part.text)))) := by
  intro response prompt ps hps
  constructor
  · intro p d hp hd
    simp [handleApiResponse, hps, hp, hd]
  · intro hnone
    constructor
    · simp [handleApiResponse, hps, hnone]
    · intro p t hp ht
      have htext : (firstTextPart ps).bind Part.text = some t := by
        rw [hp]
        simpa using ht
      rw [htext]
      by_cases h0 : t = ""
      · subst h0
        exact occurs_empty _
      · refine occurs_of_append
          ("No se encontró imagen en la respuesta de la API. " ++ "Mensaje del modelo: \"")
          ("\"" ++ " Por favor, revisa el prompt y la imagen de entrada.") ?_
        simp only [noImageMessage, if_neg h0, sappend_assoc]

/-- Witness for C6: the `blocked by policy` response fails with a message
containing that text. -/
theorem handleApiResponse_extraction_witness :
    handleApiResponse blockedResponse "prompt" =
      .error (noImageMessage (some "blocked by policy")) ∧
    Occurs "blocked by policy" (noImageMessage (some "blocked by policy")) := by
  have h := (handleApiResponse_extraction blockedResponse "prompt" [blockedTextPart] rfl).2 rfl
  exact ⟨h.1, h.2 blockedTextPart "blocked by policy" rfl rfl⟩

theorem str_truthy_lightingType (lt : LightingType) :
    (Json.str lt.toJsonString).truthy = true := by
  cases lt <;> rfl

theorem str_truthy_colorTemperature (ct : ColorTemperature) :
    (Json.str ct.toJsonString).truthy = true := by
  cases ct <;> rfl

theorem str_truthy_exposureCompensation (ec : ExposureCompensation) :
    (Json.str ec.toJsonString).truthy = true := by
  cases ec <;> rfl

theorem str_truthy_contrastEnhancement (ce : ContrastEnhancement) :
    (Json.str ce.toJsonString).truthy = true := by
  cases ce <;> rfl

/-- Loading the saved JSON value of any valid configuration accepts it and
stores exactly the five serialized field values. -/
theorem load_of_saved_config (c : LightingConfig) (s : LightingUiState) :
    handleLoadLightingConfigModel (handleSaveLightingConfigJson c) s =
      { selection := jsonSelectionOfConfig c, error := none } := by
  have h1 : (handleSaveLightingConfigJson c).getField "lightingType" =
      some (Json.str c.lightingType.toJsonString) := rfl
  have h2 : (handleSaveLightingConfigJson c).getField "advancedLightingInstructions" =
      some (Json.str c.advancedLightingInstructions) := rfl
  have h3 : (handleSaveLightingConfigJson c).getField "colorTemperature" =
      some (Json.str c.colorTemperature.toJsonString) := rfl
  have h4 : (handleSaveLightingConfigJson c).getField "exposureCompensation" =
      some (Json.str c.exposureCompensation.toJsonString) := rfl
  have h5 : (handleSaveLightingConfigJson c).getField "contrastEnhancement" =
      some (Json.str c.contrastEnhancement.toJsonString) := rfl
  simp only [handleLoadLightingConfigModel, h1, h2, h3, h4, h5,
    str_truthy_lightingType, str_truthy_colorTemperature,
    str_truthy_exposureCompensation, str_truthy_contrastEnhancement,
    Bool.and_self, if_true, jsonSelectionOfConfig]

/-- Claim C4: round trip — serializing any valid `LightingConfig` with the
save operation's JSON encoding and applying the load operation's
parse-and-validate yields an accepted configuration (error cleared) holding
exactly the original five field values. -/
theorem lighting_config_roundtrip :
    ∀ (c : LightingConfig) (s : LightingUiState),
      handleLoadLightingConfigModel (handleSaveLightingConfigJson c) s =
        { selection := jsonSelectionOfConfig c, error := none } :=
  fun c s => load_of_saved_config c s

/-- Claim C5: a configuration missing any one of the five required fields is
rejected — the error is surfaced and the in-memory selection is untouched —
while a configuration whose `advancedLightingInstructions` is present but an
empty string is accepted. -/
theorem load_missing_field_rejected :
    (∀ (j : Json) (s : LightingUiState),
      ((j.getField "lightingType").isNone = true ∨
       (j.getField "advancedLightingInstructions").isNone = true ∨
       (j.getField "colorTemperature").isNone = true ∨
       (j.getField "exposureCompensation").isNone = true ∨
       (j.getField "contrastEnhancement").isNone = true) →
      (handleLoadLightingConfigModel j s).selection = s.selection ∧
      (handleLoadLightingConfigModel j s).error =
        some ("Error al cargar la configuración de iluminación: " ++ invalidConfigMessage)) ∧
    (∀ (lt : LightingType) (ct : ColorTemperature) (ec : ExposureCompensation)
        (ce : ContrastEnhancement) (s : LightingUiState),
      handleLoadLightingConfigModel
          (handleSaveLightingConfigJson ⟨lt, "", ct, ec, ce⟩) s =
        { selection := jsonSelectionOfConfig ⟨lt, "", ct, ec, ce⟩, error := none }) := by
  constructor
  · intro j s h
    have hrej : handleLoadLightingConfigModel j s =
        { s with error := some ("Error al cargar la configuración de iluminación: " ++ invalidConfigMessage) } := by
      unfold handleLoadLightingConfigModel
      split
      · rename_i lt adv ct ec ce heq1 heq2 heq3 heq4 heq5
        rcases h with h | h | h | h | h <;> simp_all
      · rfl
    rw [hrej]
    exact ⟨rfl, rfl⟩
  · intro lt ct ec ce s
    exact load_of_saved_config ⟨lt, "", ct, ec, ce⟩ s

/-- Witness for C5: a concrete object carrying only `lightingType` is
rejected without touching the default selection, and a saved configuration
with empty advanced instructions is accepted. -/
theorem load_missing_field_rejected_witness :
    ((handleLoadLightingConfigModel missingFieldsJson defaultLightingState).selection =
        defaultLightingState.selection ∧
     (handleLoadLightingConfigModel missingFieldsJson defaultLightingState).error =
        some ("Error al cargar la configuración de iluminación: " ++ invalidConfigMessage)) ∧
    handleLoadLightingConfigModel
        (handleSaveLightingConfigJson ⟨.day, "", .neutral, .standard, .natural⟩)
        defaultLightingState =
      { selection := jsonSelectionOfConfig ⟨.day, "", .neutral, .standard, .natural⟩,
        error := none } :=
  ⟨load_missing_field_rejected.1 missingFieldsJson defaultLightingState (by decide),
   load_missing_field_rejected.2 .day .neutral .standard .natural defaultLightingState⟩

theorem jsSliceTo_of_nonneg {α : Type} (xs : List α) (stop : Int) (h : 0 ≤ stop) :
    jsSliceTo xs stop = xs.take stop.toNat := by
  unfold jsSliceTo
  rw [if_neg (by omega)]
  rcases le_total stop ((xs.length : Int)) with hle | hle
  · rw [min_eq_left hle]
  · have hlen : xs.length ≤ stop.toNat := by omega
    rw [min_eq_right hle, Int.toNat_natCast, List.take_length,
      List.take_of_length_le hlen]

/-- The add handler appends exactly the first `MAX - current` files and sets
the warning exactly on overflow. -/
theorem referenceImagesChange_eq (files : List FileV) (s : RefImagesState)
    (h : s.referenceImages.length ≤ MAX_REFERENCE_IMAGES) :
    handleReferenceImagesChangeModel files s =
      { referenceImages :=
          s.referenceImages ++
            files.take (MAX_REFERENCE_IMAGES - s.referenceImages.length),
        error :=
          if MAX_REFERENCE_IMAGES < s.referenceImages.length + files.length
          then some (limitWarning
            (files.take (MAX_REFERENCE_IMAGES - s.referenceImages.length)).length)
          else none } := by
  have hslice : jsSliceTo files
      ((MAX_REFERENCE_IMAGES : Int) - (s.referenceImages.length : Int)) =
      files.take (MAX_REFERENCE_IMAGES - s.referenceImages.length) := by
    rw [jsSliceTo_of_nonneg _ _ (by omega)]
    congr 1
    omega
  simp only [handleReferenceImagesChangeModel, hslice]
  by_cases hn : 0 < (files.take (MAX_REFERENCE_IMAGES - s.referenceImages.length)).length
  · simp only [hn, if_true]
    split <;> rfl
  · have hnil : files.take (MAX_REFERENCE_IMAGES - s.referenceImages.length) = [] :=
      List.length_eq_zero.mp (by omega)
    simp only [hn, if_false, hnil, List.append_nil, List.length_nil,
      Nat.lt_irrefl, if_false]
    split <;> rfl

/-- Claim C9: the reference-image collection is bounded by 5 — the add
handler appends exactly `min(n, 5 - k)` of the first selected files, warns
exactly when `k + n > 5`, and both add and remove preserve the bound. -/
theorem reference_images_bounded :
    ∀ (s : RefImagesState) (files : List FileV) (f : FileV),
      s.referenceImages.length ≤ MAX_REFERENCE_IMAGES →
      (handleReferenceImagesChangeModel files s).referenceImages =
        s.referenceImages ++
          files.take (MAX_REFERENCE_IMAGES - s.referenceImages.length) ∧
      (files.take (MAX_REFERENCE_IMAGES - s.referenceImages.length)).length =
        min files.length (MAX_REFERENCE_IMAGES - s.referenceImages.length) ∧
      (handleReferenceImagesChangeModel files s).referenceImages.length ≤
        MAX_REFERENCE_IMAGES ∧
      (handleReferenceImagesChangeModel files s).error =
        (if MAX_REFERENCE_IMAGES < s.referenceImages.length + files.length
         then some (limitWarning
           (files.take (MAX_REFERENCE_IMAGES - s.referenceImages.length)).length)
         else none) ∧
      (handleRemoveReferenceImageModel f s).referenceImages.length ≤
        MAX_REFERENCE_IMAGES := by
  intro s files f h
  refine ⟨?_, ?_, ?_, ?_, ?_⟩
  · rw [referenceImagesChange_eq files s h]
  · rw [List.length_take]
    exact Nat.min_comm _ _
  · rw [referenceImagesChange_eq files s h]
    simp only [List.length_append, List.length_take]
    omega
  · rw [referenceImagesChange_eq files s h]
  · exact le_trans (List.length_filter_le _ _) h

/-- Witness for C9: adding four files to a state holding two images keeps
the bound, appends the first three, and sets the warning. -/
theorem reference_images_bounded_witness :
    (handleReferenceImagesChangeModel [⟨3⟩, ⟨4⟩, ⟨5⟩, ⟨6⟩] twoRefImagesState).referenceImages =
      twoRefImagesState.referenceImages ++
        [⟨3⟩, ⟨4⟩, ⟨5⟩, ⟨6⟩].take (MAX_REFERENCE_IMAGES - twoRefImagesState.referenceImages.length) ∧
    ([(⟨3⟩ : FileV), ⟨4⟩, ⟨5⟩, ⟨6⟩].take (MAX_REFERENCE_IMAGES - twoRefImagesState.referenceImages.length)).length =
      min [(⟨3⟩ : FileV), ⟨4⟩, ⟨5⟩, ⟨6⟩].length (MAX_REFERENCE_IMAGES - twoRefImagesState.referenceImages.length) ∧
    (handleReferenceImagesChangeModel [⟨3⟩, ⟨4⟩, ⟨5⟩, ⟨6⟩] twoRefImagesState).referenceImages.length ≤
      MAX_REFERENCE_IMAGES ∧
    (handleReferenceImagesChangeModel [⟨3⟩, ⟨4⟩, ⟨5⟩, ⟨6⟩] twoRefImagesState).error =
      (if MAX_REFERENCE_IMAGES < twoRefImagesState.referenceImages.length + [(⟨3⟩ : FileV), ⟨4⟩, ⟨5⟩, ⟨6⟩].length
       then some (limitWarning
         ([(⟨3⟩ : FileV), ⟨4⟩, ⟨5⟩, ⟨6⟩].take (MAX_REFERENCE_IMAGES - twoRefImagesState.referenceImages.length)).length)
       else none) ∧
    (handleRemoveReferenceImageModel ⟨1⟩ twoRefImagesState).referenceImages.length ≤
      MAX_REFERENCE_IMAGES :=
  reference_images_bounded twoRefImagesState [⟨3⟩, ⟨4⟩, ⟨5⟩, ⟨6⟩] ⟨1⟩ (by decide)

theorem handleApiResponse_ok_shape {resp : GenResponse} {prompt u : String}
    (h : handleApiResponse resp prompt = .ok u) :
    ∃ m d, u = "data:" ++ m ++ ";base64," ++ d := by
  unfold handleApiResponse at h
  split at h
  · split at h
    · rename_i d heq2
      simp only [Except.ok.injEq] at h
      exact ⟨d.mimeType, d.data, h.symm⟩
    · simp at h
  · simp at h

theorem generateEventRenderResult_ok_shape {p : String}
    {net : Except ErrVal GenResponse} {u : String}
    (h : generateEventRenderResult p net = .ok u) :
    ∃ m d, u = "data:" ++ m ++ ";base64," ++ d := by
  unfold generateEventRenderResult at h
  split at h
  · split at h
    · rename_i imageUrl heq
      simp only [Except.ok.injEq] at h
      exact h ▸ handleApiResponse_ok_shape heq
    · split at h <;> simp at h
  · split at h <;> simp at h

theorem generateErrorMessage_ne_empty (e : ErrVal) : generateErrorMessage e ≠ "" := by
  unfold generateErrorMessage
  split
  · exact sappend_ne_empty_right _ _ (by decide)
  · split
    · decide
    · exact sappend_ne_empty_right _ _ (by decide)

/-- Claim C3: the orchestrator never throws and, for every input and every
outcome of the two remote calls, returns a result in which exactly one of
`url` and `error` is non-null — a data URL on success, a non-empty error
string on failure. (The model is a total function, so the no-throw part
holds by construction.) -/
theorem generateSingleRender_result_shape :
    ∀ (img : FileV) (desc : String) (refs : List FileV) (lt : LightingType)
      (adv : String) (ct : ColorTemperature) (ec : ExposureCompensation)
      (ce : ContrastEnhancement) (refineNet : Except ErrVal (Option String))
      (renderNet : Except ErrVal GenResponse),
      (∃ m d,
        (generateSingleRenderRun img desc refs lt adv ct ec ce refineNet renderNet).1.url =
          some ("data:" ++ m ++ ";base64," ++ d) ∧
        (generateSingleRenderRun img desc refs lt adv ct ec ce refineNet renderNet).1.error =
          none) ∨
      ((generateSingleRenderRun img desc refs lt adv ct ec ce refineNet renderNet).1.url =
          none ∧
       ∃ e,
        (generateSingleRenderRun img desc refs lt adv ct ec ce refineNet renderNet).1.error =
          some e ∧ e ≠ "") := by
  intro img desc refs lt adv ct ec ce refineNet renderNet
  unfold generateSingleRenderRun
  split
  · right
    exact ⟨rfl, "Error: Descripción de la escena faltante.", rfl, by decide⟩
  · split
    · rename_i e heq
      right
      exact ⟨rfl, generateErrorMessage e, rfl, generateErrorMessage_ne_empty e⟩
    · rename_i finalPrompt heq
      split
      · rename_i imageUrl heq2
        left
        obtain ⟨m, d, hu⟩ := generateEventRenderResult_ok_shape heq2
        exact ⟨m, d, by rw [← hu], rfl⟩
      · rename_i e heq2
        right
        exact ⟨rfl, generateErrorMessage e, rfl, generateErrorMessage_ne_empty e⟩

/-- Claim C8: with a non-empty description and both remote calls succeeding,
exactly two progress messages are emitted, in order, the refinement one
before the refine call and the render one before the render call. -/
theorem generateSingleRender_progress_order :
    ∀ (img : FileV) (desc : String) (refs : List FileV) (lt : LightingType)
      (adv : String) (ct : ColorTemperature) (ec : ExposureCompensation)
      (ce : ContrastEnhancement) (refineNet : Except ErrVal (Option String))
      (renderNet : Except ErrVal GenResponse) (finalPrompt imageUrl : String),
      jsTrim desc ≠ "" →
      refinePromptForGenerationResult refineNet = .ok finalPrompt →
      generateEventRenderResult finalPrompt renderNet = .ok imageUrl →
      (generateSingleRenderRun img desc refs lt adv ct ec ce refineNet renderNet).2 =
        [TraceEv.progress "Refinando prompt para la escena...",
         TraceEv.refineCall (refinementPrompt desc lt adv ct ec ce
           (decide (0 < refs.length))),
         TraceEv.progress "Generando render para la escena...",
         TraceEv.renderCall img finalPrompt refs] := by
  intro img desc refs lt adv ct ec ce refineNet renderNet finalPrompt imageUrl h1 h2 h3
  simp only [generateSingleRenderRun, if_neg h1, h2, h3]

/-- Witness for C8: a concrete successful run produces exactly the four-event
trace. -/
theorem generateSingleRender_progress_order_witness :
    (generateSingleRenderRun ⟨0⟩ "desc" [] .day "" .neutral .standard .natural
        (.ok (some "x")) (.ok imageResponse)).2 =
      [TraceEv.progress "Refinando prompt para la escena...",
       TraceEv.refineCall (refinementPrompt "desc" .day "" .neutral .standard .natural
         (decide (0 < ([] : List FileV).length))),
       TraceEv.progress "Generando render para la escena...",
       TraceEv.renderCall ⟨0⟩ "x" []] :=
  generateSingleRender_progress_order ⟨0⟩ "desc" [] .day "" .neutral .standard .natural
    (.ok (some "x")) (.ok imageResponse) "x" "data:image/png;base64,QUFB"
    (by decide) rfl rfl

/-- Counterexample to claim C1 as stated: the claim requires that no
progress notification be emitted before the early return on a
whitespace-only description, but on the concrete input `" "` the emitted
progress-message list is non-empty (the refinement-stage notification and
the error message are both emitted before returning). -/
theorem empty_description_progress_counterexample :
    ¬ (progressMessages
        (generateSingleRenderRun ⟨0⟩ " " [] .day "" .neutral .standard .natural
          (.error ⟨none, none⟩) (.error ⟨none, none⟩)).2 = []) := by
  decide

/-- Claim C1 (amended): on an empty or whitespace-only description the
orchestrator returns immediately with `{url: null, error: non-empty}` and
performs no network call, but it emits two progress notifications before
returning — the refinement-stage notification and the error message. -/
theorem generateSingleRender_empty_description :
    ∀ (img : FileV) (desc : String) (refs : List FileV) (lt : LightingType)
      (adv : String) (ct : ColorTemperature) (ec : ExposureCompensation)
      (ce : ContrastEnhancement) (refineNet : Except ErrVal (Option String))
      (renderNet : Except ErrVal GenResponse),
      jsTrim desc = "" →
      (generateSingleRenderRun img desc refs lt adv ct ec ce refineNet renderNet).1 =
        ⟨none, some "Error: Descripción de la escena faltante."⟩ ∧
      (generateSingleRenderRun img desc refs lt adv ct ec ce refineNet renderNet).2 =
        [TraceEv.progress "Refinando prompt para la escena...",
         TraceEv.progress "Error: Descripción de la escena faltante."] := by
  intro img desc refs lt adv ct ec ce refineNet renderNet h
  unfold generateSingleRenderRun
  rw [if_pos h]
  exact ⟨rfl, rfl⟩

/-- Witness for the amended C1 at the whitespace-only description `"   "`. -/
theorem generateSingleRender_empty_description_witness :
    (generateSingleRenderRun ⟨0⟩ "   " [] .day "" .neutral .standard .natural
        (.error ⟨none, none⟩) (.error ⟨none, none⟩)).1 =
      ⟨none, some "Error: Descripción de la escena faltante."⟩ ∧
    (generateSingleRenderRun ⟨0⟩ "   " [] .day "" .neutral .standard .natural
        (.error ⟨none, none⟩) (.error ⟨none, none⟩)).2 =
      [TraceEv.progress "Refinando prompt para la escena...",
       TraceEv.progress "Error: Descripción de la escena faltante."] :=
  generateSingleRender_empty_description ⟨0⟩ "   " [] .day "" .neutral .standard .natural
    (.error ⟨none, none⟩) (.error ⟨none, none⟩) (by decide)

/-- Counterexample to claim C2 as stated: with a refine failure whose
message is exactly `Requested entity was not found.`, the result error is
the wrapped invalid-key message and does not contain the billing
documentation reference. -/
theorem entitlement_error_billing_counterexample :
    (generateSingleRenderRun ⟨0⟩ "x" [] .day "" .neutral .standard .natural
        (.error ⟨some "Requested entity was not found.", none⟩)
        (.error ⟨none, none⟩)).1.error =
      some ("Error al generar la escena: " ++ invalidApiKeyMessage ++ ".") ∧
    ¬ Occurs "ai.google.dev/gemini-api/docs/billing"
        ("Error al generar la escena: " ++ invalidApiKeyMessage ++ ".") := by
  exact ⟨by decide, by decide⟩

/-- Claim C2 (amended): when the refine or the render remote call fails with
an error whose message contains `Requested entity was not found.`, the inner
handler replaces it with the invalid-key message, so the orchestrator
returns `{url: null, error}` with the wrapped invalid-key message — which
does not contain the billing-documentation reference; the billing
augmentation fires only for errors that still carry the marker substring
when they reach the orchestrator's catch handler. -/
theorem entitlement_error_masked :
    ∀ (img : FileV) (desc : String) (refs : List FileV) (lt : LightingType)
      (adv : String) (ct : ColorTemperature) (ec : ExposureCompensation)
      (ce : ContrastEnhancement) (refineNet : Except ErrVal (Option String))
      (renderNet : Except ErrVal GenResponse) (e : ErrVal),
      jsTrim desc ≠ "" →
      ((refineNet = .error e ∧ jsMsgIncludes e requestedEntityNotFound = true) ∨
       ((∃ fp, refinePromptForGenerationResult refineNet = .ok fp) ∧
        renderNet = .error e ∧ jsMsgIncludes e requestedEntityNotFound = true)) →
      (generateSingleRenderRun img desc refs lt adv ct ec ce refineNet renderNet).1.error =
        some ("Error al generar la escena: " ++ invalidApiKeyMessage ++ ".") ∧
      ¬ Occurs "ai.google.dev/gemini-api/docs/billing"
          ("Error al generar la escena: " ++ invalidApiKeyMessage ++ ".") := by
  intro img desc refs lt adv ct ec ce refineNet renderNet e hdesc hcase
  have hmask : generateErrorMessage ⟨some invalidApiKeyMessage, none⟩ =
      "Error al generar la escena: " ++ invalidApiKeyMessage ++ "." := by decide
  refine ⟨?_, by decide⟩
  rcases hcase with ⟨hnet, hinc⟩ | ⟨⟨fp, hfp⟩, hnet, hinc⟩
  · have href : refinePromptForGenerationResult refineNet =
        .error ⟨some invalidApiKeyMessage, none⟩ := by
      rw [hnet]
      simp [refinePromptForGenerationResult, hinc]
    simp only [generateSingleRenderRun, if_neg hdesc, href]
    rw [hmask]
  · have hrender : generateEventRenderResult fp renderNet =
        .error ⟨some invalidApiKeyMessage, none⟩ := by
      rw [hnet]
      simp [generateEventRenderResult, hinc]
    simp only [generateSingleRenderRun, if_neg hdesc, hfp, hrender]
    rw [hmask]

/-- Witness for the amended C2: a concrete refine failure carrying the
marker substring yields the wrapped invalid-key message without the billing
reference. -/
theorem entitlement_error_masked_witness :
    (generateSingleRenderRun ⟨0⟩ "x" [] .day "" .neutral .standard .natural
        (.error ⟨some "Requested entity was not found.", none⟩)
        (.error ⟨none, none⟩)).1.error =
      some ("Error al generar la escena: " ++ invalidApiKeyMessage ++ ".") ∧
    ¬ Occurs "ai.google.dev/gemini-api/docs/billing"
        ("Error al generar la escena: " ++ invalidApiKeyMessage ++ ".") :=
  entitlement_error_masked ⟨0⟩ "x" [] .day "" .neutral .standard .natural
    (.error ⟨some "Requested entity was not found.", none⟩)
    (.error ⟨none, none⟩) ⟨some "Requested entity was not found.", none⟩
    (by decide) (Or.inl ⟨rfl, by decide⟩)

end RenderApp
